import Mathlib

/-!
Verification of the Zeno backend payment, commission, order and payout logic.

The definitions below are a shallow embedding of the Python source:

* `payments/models.py` — `Payment.save`, `Payment._create_vendor_earning`,
  `MpesaConfiguration.auto_process_payouts`, `PayoutRequest`,
* `payments/views.py` — `_handle_stk_callback`, `_handle_b2c_callback`,
  `PayoutRequestViewSet.process`,
* `payments/serializers.py` — `PayoutRequestCreateSerializer.validate`,
* `orders/serializers.py` — `UpdateOrderStatusSerializer.validate_status`,
* `orders/views.py` — `OrderViewSet.cancel`, `OrderViewSet.bulk_update_status`,
* `vendors/models.py` — `Vendor.save`, `VendorEarning`, `PayoutTransaction`.

Money amounts are Django `DecimalField` values; they are embedded as exact
rationals (`ℚ`), matching the exact decimal arithmetic the source performs
(Python `Decimal`; no binary floating point is involved).
-/

namespace Zeno

/-! ## Commission computation (payments/models.py, `Payment.save`, lines 88-94)

The source computes, in exact `Decimal` arithmetic and with no rounding step:

    self.commission_amount = (self.amount * self.commission_rate) / 100
    self.vendor_earnings   = self.amount - self.commission_amount
-/

/-- `Payment.save` commission: `(amount * commission_rate) / 100`, exact. -/
def commission_amount (amount commission_rate : ℚ) : ℚ :=
  amount * commission_rate / 100

/-- `Payment.save` net earnings: `amount - commission_amount`, exact. -/
def vendor_earnings (amount commission_rate : ℚ) : ℚ :=
  amount - commission_amount amount commission_rate

/-- Modelled from the spec wording only (for comparison with the source):
the spec asserts the commission is `round(gross * rate / 100, 2)`, i.e. the
exact quotient rounded to two decimal places. -/
def spec_rounded_commission (amount commission_rate : ℚ) : ℚ :=
  (round (100 * (amount * commission_rate / 100)) : ℤ) / 100

theorem commission_exact_example : commission_amount 1 (1 / 100) = 1 / 10000 := by
  norm_num [commission_amount]

/-- C3 counterexample: the claim says `commission_amount` equals
`gross * rate / 100` rounded to two decimal places. The source performs no
rounding: at gross `1.00` and rate `0.01` (both representable two-decimal
inputs) the code stores `0.0001`, while the claimed rounded value is `0.00`. -/
theorem C3_commission_rounding_counterexample :
    commission_amount 1 (1 / 100) ≠ spec_rounded_commission 1 (1 / 100) := by
  norm_num [commission_amount, spec_rounded_commission, round_eq]

/-- C3 (amended): `Payment.save` computes `commission_amount = g * r / 100`
and `vendor_earnings = g - commission_amount` in exact decimal arithmetic with
no rounding step, so `commission + net = g` exactly for every gross amount and
rate; in particular amount 1000 at rate 10 gives commission 100.00 and vendor
earnings 900.00. -/
theorem C3_commission_split_exact :
    (∀ g r : ℚ, commission_amount g r + vendor_earnings g r = g) ∧
      commission_amount 1000 10 = 100 ∧ vendor_earnings 1000 10 = 900 := by
  refine ⟨fun g r => ?_, by norm_num [commission_amount], by
    norm_num [vendor_earnings, commission_amount]⟩
  simp [commission_amount, vendor_earnings]

/-! ## Order status state machine (orders/serializers.py, orders/views.py)

`UpdateOrderStatusSerializer.validate_status` (lines 448-463) and
`OrderViewSet.bulk_update_status` (lines 630-649) both validate against the
same `valid_transitions` table and raise an error naming the current and the
requested status when the pair is not in the table, leaving the order row
untouched. -/

/-- Order status choices (orders/models.py, `Order.status`). -/
inductive OrderStatus
  | pending
  | confirmed
  | in_progress
  | completed
  | cancelled
  | failed
deriving DecidableEq, Repr

/-- Order type choices (orders/models.py, `Order.ORDER_TYPES`). -/
inductive OrderType
  | service
  | gas_product
  | mixed
deriving DecidableEq, Repr

/-- Line-item type choices (orders/models.py, `OrderItem.item_type`). -/
inductive ItemType
  | service
  | gas_product
deriving DecidableEq, Repr

/-- The slice of `vendors.GasProduct` the order logic touches. -/
structure GasProduct where
  stock_quantity : ℤ
deriving DecidableEq, Repr

/-- The slice of `orders.OrderItem` the cancel logic touches: mixed orders
carry line items with a type discriminator, an optional gas product and a
quantity. -/
structure OrderItem where
  item_type : ItemType
  gas_product : Option GasProduct
  quantity : ℤ
deriving DecidableEq, Repr

/-- The slice of `orders.Order` the status and cancel logic touches. -/
structure Order where
  status : OrderStatus
  order_type : OrderType
  gas_product : Option GasProduct
  quantity : ℤ
  items : List OrderItem
deriving DecidableEq, Repr

/-- The `valid_transitions` dictionary of
`UpdateOrderStatusSerializer.validate_status`, repeated verbatim in
`OrderViewSet.bulk_update_status`. -/
def valid_transitions : OrderStatus → List OrderStatus
  | .pending => [.confirmed, .cancelled]
  | .confirmed => [.in_progress, .cancelled]
  | .in_progress => [.completed, .cancelled]
  | .completed => []
  | .cancelled => []
  | .failed => []

/-- The rejection raised by `validate_status`: the `ValidationError` message
names the current and the requested status
(`"Cannot change status from {current_status} to {value}"`). -/
structure InvalidTransition where
  current : OrderStatus
  requested : OrderStatus
deriving DecidableEq, Repr

/-- `UpdateOrderStatusSerializer`: `validate_status` checks the table and the
`update` writes the new status; a `ValidationError` aborts before any write. -/
def update_order_status (o : Order) (value : OrderStatus) :
    Except InvalidTransition Order :=
  if value ∈ valid_transitions o.status then
    .ok { o with status := value }
  else
    .error ⟨o.status, value⟩

/-- The order row as stored after the endpoint returns: unchanged when
validation rejected the transition. -/
def stored_order_after_update (o : Order) (value : OrderStatus) : Order :=
  match update_order_status o value with
  | .ok o2 => o2
  | .error _ => o

/-- The transition table as enumerated by the claim. -/
def claim_transition_table : List (OrderStatus × OrderStatus) :=
  [(.pending, .confirmed), (.pending, .cancelled),
   (.confirmed, .in_progress), (.confirmed, .cancelled),
   (.in_progress, .completed), (.in_progress, .cancelled)]

/-- C6: a status update succeeds iff the (current, requested) pair is in the
transition table {pending→confirmed|cancelled, confirmed→in_progress|cancelled,
in_progress→completed|cancelled}; otherwise it fails with an error naming the
current and requested states and the stored order is unmodified; on success
only the status field changes. -/
theorem C6_transition_table (o : Order) (s : OrderStatus) :
    ((update_order_status o s).isOk ↔ (o.status, s) ∈ claim_transition_table) ∧
    ((o.status, s) ∉ claim_transition_table →
      update_order_status o s = .error ⟨o.status, s⟩ ∧
      stored_order_after_update o s = o) ∧
    (∀ o2, update_order_status o s = .ok o2 → o2 = { o with status := s }) := by
  rcases o with ⟨st, ot, gp, q, its⟩
  cases st <;> cases s <;>
    simp [update_order_status, stored_order_after_update, valid_transitions,
      claim_transition_table, Except.isOk, Except.toBool]

/-- A sample pending order (Scenario B input). -/
def sample_pending_order : Order :=
  ⟨.pending, .gas_product, some ⟨10⟩, 3, []⟩

/-- C6 witness: a pending order requested to move to in_progress is rejected
with an error naming pending and in_progress, and the stored order is
unchanged. -/
theorem C6_transition_table_witness :
    update_order_status sample_pending_order .in_progress =
      .error ⟨.pending, .in_progress⟩ ∧
    stored_order_after_update sample_pending_order .in_progress =
      sample_pending_order :=
  (C6_transition_table sample_pending_order .in_progress).2.1 (by decide)

/-! ## Order cancellation (orders/views.py, `OrderViewSet.cancel`, lines 395-430)

The endpoint rejects orders already completed or cancelled, restores gas
product stock (directly for `gas_product` orders, per line item for `mixed`
orders, nothing for `service` items), then sets the status to cancelled and
saves — one operation from the callers point of view. -/

/-- Stock restoration applied to one line item of a mixed order: the loop
`for item in order.items.filter(item_type='gas_product')` with the inner
`if item.gas_product` guard. -/
def restore_item_stock (it : OrderItem) : OrderItem :=
  if it.item_type = .gas_product then
    match it.gas_product with
    | some p => { it with gas_product := some ⟨p.stock_quantity + it.quantity⟩ }
    | none => it
  else it

/-- `OrderViewSet.cancel`: reject terminal (completed/cancelled) orders,
restore stock according to the order type, set status to cancelled. -/
def cancel_order (o : Order) : Except String Order :=
  if o.status = .completed ∨ o.status = .cancelled then
    .error "Cannot cancel order with status"
  else
    let o1 : Order :=
      if o.gas_product.isSome ∧ o.order_type = .gas_product then
        { o with gas_product :=
            o.gas_product.map fun p => ⟨p.stock_quantity + o.quantity⟩ }
      else if o.order_type = .mixed then
        { o with items := o.items.map restore_item_stock }
      else o
    .ok { o1 with status := .cancelled }

/-- C8: cancelling a non-terminal gas-product order restores the reserved
quantity to the product stock and sets the status to cancelled in the same
operation; for mixed orders every gas-product line item is restored while
service line items restore nothing. -/
theorem C8_cancel_restores_stock (o : Order) (p : GasProduct)
    (hs : o.status = .pending ∨ o.status = .confirmed ∨
      o.status = .in_progress) :
    (o.order_type = .gas_product → o.gas_product = some p →
      cancel_order o =
        .ok { o with status := .cancelled,
                     gas_product := some ⟨p.stock_quantity + o.quantity⟩ }) ∧
    (o.order_type = .mixed →
      cancel_order o =
        .ok { o with status := .cancelled,
                     items := o.items.map restore_item_stock }) ∧
    (∀ it : OrderItem, it.item_type = .service → restore_item_stock it = it) ∧
    (∀ it : OrderItem, ∀ q : GasProduct,
      it.item_type = .gas_product → it.gas_product = some q →
      restore_item_stock it =
        { it with gas_product := some ⟨q.stock_quantity + it.quantity⟩ }) := by
  have hterm : ¬(o.status = .completed ∨ o.status = .cancelled) := by
    rcases hs with h | h | h <;> simp [h]
  refine ⟨fun hty hgp => ?_, fun hty => ?_, fun it hit => ?_,
    fun it q hit hq => ?_⟩
  · simp [cancel_order, hterm, hty, hgp]
  · rcases o with ⟨st, ot, gp, qn, its⟩
    cases ot with
    | mixed =>
        cases gp <;>
          simp_all [cancel_order]
    | service => simp_all
    | gas_product => simp_all
  · simp [restore_item_stock, hit]
  · simp [restore_item_stock, hit, hq]

/-- A confirmed gas-product order of quantity 3 on a product with 10 units in
stock (Scenario E input). -/
def sample_confirmed_gas_order : Order :=
  ⟨.confirmed, .gas_product, some ⟨10⟩, 3, []⟩

/-- C8 witness: cancelling the confirmed gas-product order of quantity 3
yields a cancelled order whose product stock grew from 10 to 13. -/
theorem C8_cancel_restores_stock_witness :
    cancel_order sample_confirmed_gas_order =
      .ok ⟨.cancelled, .gas_product, some ⟨13⟩, 3, []⟩ := by
  have h :=
    (C8_cancel_restores_stock sample_confirmed_gas_order ⟨10⟩
      (Or.inr (Or.inl rfl))).1 rfl rfl
  simpa [sample_confirmed_gas_order] using h

/-! ## Vendor balance ledger fields (vendors/models.py, `Vendor`, lines 291-294) -/

/-- The four cached ledger counters embedded on `Vendor`. -/
structure VendorLedger where
  total_earnings : ℚ
  available_balance : ℚ
  pending_payouts : ℚ
  total_paid_out : ℚ
deriving DecidableEq, Repr

/-! ## Payout request creation (payments/serializers.py, lines 165-183)

`PayoutRequestCreateSerializer.validate` rejects an amount above the available
balance with a message reporting the exact balance
(`"Insufficient balance. Available: KES {vendor.available_balance}"`).
A negative amount is rejected earlier by the model field validator
`MinValueValidator(0)` on `PayoutRequest.amount`. No check in the create path
rejects an amount of exactly zero. Creation stores a pending `PayoutRequest`
row and performs no ledger mutation (only `PayoutRequestViewSet.process`
touches the ledger). -/

/-- Rejections on the payout request create path. -/
inductive PayoutCreateError
  | insufficient_balance (available : ℚ)
  | negative_amount
deriving DecidableEq, Repr

/-- A `PayoutRequest` row as created: the requested amount in pending status
(payments/models.py, `PayoutRequest`, default status pending). -/
structure PayoutRequestRow where
  amount : ℚ
  approved : Bool
deriving DecidableEq, Repr

/-- The create path: field validators run first (`MinValueValidator(0)`),
then `PayoutRequestCreateSerializer.validate` compares the amount against the
available balance; on success a pending row is created and the ledger is
returned untouched. -/
def create_payout_request (v : VendorLedger) (amount : ℚ) :
    Except PayoutCreateError (VendorLedger × PayoutRequestRow) :=
  if amount < 0 then
    .error .negative_amount
  else if v.available_balance < amount then
    .error (.insufficient_balance v.available_balance)
  else
    .ok (v, ⟨amount, false⟩)

/-- C7 counterexample: the claim says an amount of at most zero is rejected;
the create path accepts a request for exactly 0 against a balance of 500. -/
theorem C7_zero_amount_counterexample :
    create_payout_request ⟨500, 500, 0, 0⟩ 0 =
      .ok (⟨500, 500, 0, 0⟩, ⟨0, false⟩) := by
  norm_num [create_payout_request]

/-- C7 (amended): a payout request whose amount exceeds the available balance
is rejected with an insufficient-balance error reporting the exact available
balance, a negative amount is rejected by the non-negativity field validator,
an amount of exactly zero is accepted, and a create — accepted or rejected —
leaves every ledger field unchanged. -/
theorem C7_insufficient_balance (v : VendorLedger) (amount : ℚ) :
    (0 ≤ amount → v.available_balance < amount →
      create_payout_request v amount =
        .error (.insufficient_balance v.available_balance)) ∧
    (amount < 0 →
      create_payout_request v amount = .error .negative_amount) ∧
    (∀ res, create_payout_request v amount = .ok res → res.1 = v) := by
  refine ⟨fun hnn hlt => ?_, fun hneg => ?_, fun res hok => ?_⟩
  · simp [create_payout_request, not_lt.mpr hnn, hlt]
  · simp [create_payout_request, hneg]
  · unfold create_payout_request at hok
    split at hok
    · cases hok
    · split at hok
      · cases hok
      · cases hok
        rfl

/-- C7 witness (Scenario C): with available balance 500 a request for 600 is
rejected reporting the exact balance 500, and the ledger stays at 500. -/
theorem C7_insufficient_balance_witness :
    create_payout_request ⟨500, 500, 0, 0⟩ 600 =
      .error (.insufficient_balance 500) :=
  (C7_insufficient_balance ⟨500, 500, 0, 0⟩ 600).1 (by norm_num) (by norm_num)

/-! ## Commission rate validation (vendors/models.py `Vendor.save` lines
376-391; payments/models.py `Payment` fields lines 33-48)

`Vendor.save` silently clamps an out-of-range commission rate into [0, 100].
The `Payment` fields `amount` and `commission_rate` carry only
`MinValueValidator(0)`: negative values fail validation, but
`Payment.commission_rate` has no upper bound. -/

/-- `Vendor.save` lines 377-381: clamp the commission rate into [0, 100]
before saving. -/
def vendor_save_commission_rate (r : ℚ) : ℚ :=
  if r < 0 then 0
  else if 100 < r then 100
  else r

/-- Field validation on `Payment.amount` and `Payment.commission_rate`:
`MinValueValidator(0)` on each, no maximum on either. -/
def payment_fields_valid (amount commission_rate : ℚ) : Prop :=
  0 ≤ amount ∧ 0 ≤ commission_rate

instance (a r : ℚ) : Decidable (payment_fields_valid a r) := by
  unfold payment_fields_valid
  infer_instance

/-- C9 counterexample: the claim says no code path accepts an out-of-range
rate by replacing it with 0 or 100, yet `Vendor.save` maps rate 150 to 100 and
rate -7 to 0 — it clamps instead of rejecting. -/
theorem C9_clamping_counterexample :
    vendor_save_commission_rate 150 = 100 ∧
      vendor_save_commission_rate (-7) = 0 := by
  norm_num [vendor_save_commission_rate]

/-- C9 (amended): negative gross amounts and negative rates are rejected by
the `MinValueValidator(0)` field validation on `Payment`, but a rate above 100
passes `Payment` field validation (there is no maximum), and `Vendor.save`
silently clamps an out-of-range rate into [0, 100] instead of rejecting it
(in-range rates are kept unchanged). -/
theorem C9_rate_validation (amount r : ℚ) :
    (amount < 0 → ¬payment_fields_valid amount r) ∧
    (r < 0 → ¬payment_fields_valid amount r) ∧
    payment_fields_valid 1000 150 ∧
    (100 < r → vendor_save_commission_rate r = 100) ∧
    (r < 0 → vendor_save_commission_rate r = 0) ∧
    (0 ≤ r → r ≤ 100 → vendor_save_commission_rate r = r) := by
  refine ⟨fun ha h => absurd h.1 (not_le.mpr ha),
    fun hr h => absurd h.2 (not_le.mpr hr),
    by norm_num [payment_fields_valid],
    fun hgt => ?_, fun hneg => ?_, fun h0 h100 => ?_⟩
  · have : ¬r < 0 := by linarith
    simp [vendor_save_commission_rate, this, hgt]
  · simp [vendor_save_commission_rate, hneg]
  · have h1 : ¬r < 0 := not_lt.mpr h0
    have h2 : ¬100 < r := not_lt.mpr h100
    simp [vendor_save_commission_rate, h1, h2]

/-- C9 witness: rate -3 fails `Payment` field validation; a gross of -5 fails
it too; rate 150 passes it; `Vendor.save` clamps 150 to 100, clamps -3 to 0,
and keeps 10 unchanged. -/
theorem C9_rate_validation_witness :
    ¬payment_fields_valid (-5) 10 ∧
    ¬payment_fields_valid 1000 (-3) ∧
    payment_fields_valid 1000 150 ∧
    vendor_save_commission_rate 150 = 100 ∧
    vendor_save_commission_rate (-3) = 0 ∧
    vendor_save_commission_rate 10 = 10 :=
  ⟨(C9_rate_validation (-5) 10).1 (by norm_num),
   (C9_rate_validation 1000 (-3)).2.1 (by norm_num),
   (C9_rate_validation 1000 150).2.2.1,
   (C9_rate_validation 1000 150).2.2.2.1 (by norm_num),
   (C9_rate_validation 1000 (-3)).2.2.2.2.1 (by norm_num),
   (C9_rate_validation 1000 10).2.2.2.2.2 (by norm_num) (by norm_num)⟩

/-! ## STK Push callback (payments/views.py, `_handle_stk_callback`, lines
487-548; payments/models.py, `Payment.save` / `Payment._create_vendor_earning`,
lines 88-120)

The state below bundles the rows the handler touches: the `Payment` found by
`transaction_id`, its `Order`, the active `MpesaConfiguration` flag, the list
of `VendorEarning` rows in the database, and the vendor ledger counters. The
model assumes the payment lookup by `CheckoutRequestID` succeeded.

Two source facts shape the embedding:

* `Payment._create_vendor_earning` passes `order=self.order` to
  `VendorEarning.objects.create(...)` (payments/models.py line 109), but the
  `order` ForeignKey on `VendorEarning` is commented out (vendors/models.py
  lines 86-93). Django `Model.__init__` raises `TypeError` for a keyword
  argument matching no field, so whenever the vendor guard passes the call
  crashes before any row is inserted.

* The handler is not wrapped in a transaction: `payment.order.save()` (line
  521) persists the paid flag before the crash point, while the in-memory
  mutations of the `Payment` row are only persisted by the `payment.save()`
  at line 545, which the escaping exception skips. The model therefore
  threads the persisted state separately from the in-memory payment fields,
  and a handler outcome carries the persisted state plus a flag that is
  `false` when the exception escaped to the catch-all in `mpesa_callback`
  (which answers with HTTP 400). -/

/-- `Payment.status` choices. -/
inductive PaymentStatus
  | pending
  | processing
  | completed
  | failed
  | cancelled
deriving DecidableEq, Repr

/-- `Payment.payout_status` choices. -/
inductive PayoutStatus
  | pending
  | processed
  | paid
deriving DecidableEq, Repr

/-- `Order.payment_status` choices. -/
inductive OrderPaymentStatus
  | pending
  | paid
  | failed
  | refunded
deriving DecidableEq, Repr

/-- A `vendors.VendorEarning` row (the financial fields
`Payment._create_vendor_earning` would populate). -/
structure VendorEarningRow where
  gross_amount : ℚ
  commission_rate : ℚ
  commission_amount : ℚ
  net_amount : ℚ
deriving DecidableEq, Repr

/-- The rows `_handle_stk_callback` reads and writes. -/
structure StkState where
  payment_status : PaymentStatus
  amount : ℚ
  commission_rate : ℚ
  commission_amount : ℚ
  vendor_earnings : ℚ
  payout_status : PayoutStatus
  vendor_earning_linked : Bool
  order_payment_status : OrderPaymentStatus
  order_has_vendor : Bool
  earnings : List VendorEarningRow
  available_balance : ℚ
  total_earnings : ℚ
  auto_process_payouts : Bool
deriving DecidableEq, Repr

/-- `Payment._create_vendor_earning` (payments/models.py lines 102-120):
the `if self.order.vendor` guard runs first; with no vendor the method
silently does nothing (`some s`, state untouched). With a vendor it calls
`VendorEarning.objects.create(vendor=..., order=self.order, payment=self,
...)`; `VendorEarning` has no `order` field (the ForeignKey is commented out,
vendors/models.py lines 86-93), so Django `Model.__init__` raises `TypeError`
for the unexpected keyword argument before any row is inserted: no earning is
created, nothing is linked, and the exception escapes (`none`). -/
def create_vendor_earning (s : StkState) : Option StkState :=
  if s.order_has_vendor then
    none
  else
    some s

/-- `Payment.save` step 1 (payments/models.py lines 90-91): auto-calculate
`commission_amount` when still zero (a zero `Decimal` is falsy in Python). -/
def payment_save_commission (s : StkState) : StkState :=
  if s.amount ≠ 0 ∧ s.commission_amount = 0 then
    { s with commission_amount := commission_amount s.amount s.commission_rate }
  else s

/-- `Payment.save` step 2 (payments/models.py lines 93-94): auto-calculate
`vendor_earnings` when still zero. -/
def payment_save_net (s : StkState) : StkState :=
  if s.amount ≠ 0 ∧ s.commission_amount ≠ 0 ∧ s.vendor_earnings = 0 then
    { s with vendor_earnings := s.amount - s.commission_amount }
  else s

/-- `Payment.save` (payments/models.py lines 88-100): the commission
auto-fill runs on the in-memory instance, then — when the payment is
completed, its payout status is still pending and no earning is linked —
the hook calls `_create_vendor_earning`. When that call raises (vendor
present, `TypeError` on the `order` kwarg) the exception escapes before
`super().save()`, so nothing of the in-memory payment is persisted and the
database keeps `persisted` (`false` outcome). Otherwise `super().save()`
persists the in-memory fields (`true` outcome). -/
def payment_save (persisted inmem : StkState) : StkState × Bool :=
  let m := payment_save_net (payment_save_commission inmem)
  if m.payment_status = .completed ∧ m.payout_status = .pending ∧
      m.vendor_earning_linked = false then
    match create_vendor_earning m with
    | some m2 => (m2, true)
    | none => (persisted, false)
  else (m, true)

/-- `_handle_stk_callback` (payments/views.py lines 487-548): on result code 0
set the payment fields in memory, persist the order paid flag
(`payment.order.save()`, line 521), then — when `auto_process_payouts` is on —
call `_create_vendor_earning` directly (line 526). With a vendor that call
raises `TypeError`; without one the subsequent
`payment.order.vendor.available_balance` access (line 530) raises
`AttributeError` on `None`. Either way the exception escapes before
`payment.save()` (line 545), so only the order update is persisted and
`mpesa_callback` answers with an error. With the flag off (and on the
failure branch, which touches no order field) `payment.save()` runs. -/
def handle_stk_callback (result_code : ℤ) (s : StkState) : StkState × Bool :=
  if result_code = 0 then
    let persisted : StkState := { s with order_payment_status := .paid }
    let inmem : StkState :=
      { s with order_payment_status := .paid, payment_status := .completed }
    if inmem.auto_process_payouts then
      match create_vendor_earning inmem with
      | some _ => (persisted, false)
      | none => (persisted, false)
    else
      payment_save persisted inmem
  else
    payment_save s { s with payment_status := .failed }

/-- A payment of 1000 at rate 10 (commission 100, net 900), processing,
not yet linked to an earning, order with a vendor, vendor ledger at zero,
automatic payout processing enabled. -/
def sample_stk_state : StkState :=
  ⟨.processing, 1000, 10, 100, 900, .pending, false, .pending, true, [], 0, 0,
    true⟩

/-- C1: delivering the same successful STK callback twice never reaches the
claimed outcome — instead of one `VendorEarning` row and one balance credit,
each delivery crashes inside `_create_vendor_earning` (`TypeError` on the
`order` kwarg: `VendorEarning` has no `order` field), so after two deliveries
there are zero earning rows, the balance and total earnings were never
credited, the payment was never persisted in a terminal state, and both
deliveries were answered with an error rather than a duplicate-tolerant
success. -/
theorem C1_duplicate_callback_crashes :
    (handle_stk_callback 0 sample_stk_state).2 = false ∧
    (handle_stk_callback 0
        (handle_stk_callback 0 sample_stk_state).1).2 = false ∧
    (handle_stk_callback 0
        (handle_stk_callback 0 sample_stk_state).1).1.earnings.length = 0 ∧
    (handle_stk_callback 0
        (handle_stk_callback 0 sample_stk_state).1).1.available_balance = 0 ∧
    (handle_stk_callback 0
        (handle_stk_callback 0 sample_stk_state).1).1.total_earnings = 0 ∧
    (handle_stk_callback 0
        (handle_stk_callback 0 sample_stk_state).1).1.payment_status =
      .processing ∧
    (handle_stk_callback 0
        (handle_stk_callback 0 sample_stk_state).1).1.order_payment_status =
      .paid := by
  norm_num [handle_stk_callback, payment_save, payment_save_commission,
    payment_save_net, create_vendor_earning, sample_stk_state]

/-- Frame facts for `Payment.save` step 1: only `commission_amount` can
change. -/
theorem payment_save_commission_frame (s : StkState) :
    (payment_save_commission s).payment_status = s.payment_status ∧
    (payment_save_commission s).payout_status = s.payout_status ∧
    (payment_save_commission s).vendor_earning_linked =
      s.vendor_earning_linked ∧
    (payment_save_commission s).order_payment_status =
      s.order_payment_status ∧
    (payment_save_commission s).order_has_vendor = s.order_has_vendor ∧
    (payment_save_commission s).earnings = s.earnings ∧
    (payment_save_commission s).available_balance = s.available_balance ∧
    (payment_save_commission s).total_earnings = s.total_earnings := by
  unfold payment_save_commission
  split <;> simp

/-- Frame facts for `Payment.save` step 2: only `vendor_earnings` can
change. -/
theorem payment_save_net_frame (s : StkState) :
    (payment_save_net s).payment_status = s.payment_status ∧
    (payment_save_net s).payout_status = s.payout_status ∧
    (payment_save_net s).vendor_earning_linked = s.vendor_earning_linked ∧
    (payment_save_net s).order_payment_status = s.order_payment_status ∧
    (payment_save_net s).order_has_vendor = s.order_has_vendor ∧
    (payment_save_net s).earnings = s.earnings ∧
    (payment_save_net s).available_balance = s.available_balance ∧
    (payment_save_net s).total_earnings = s.total_earnings := by
  unfold payment_save_net
  split <;> simp

/-- A payment of 1000 at rate 10 with automatic payout processing disabled,
an order with a vendor, and a nonzero starting ledger. -/
def sample_stk_state_auto_off : StkState :=
  ⟨.processing, 1000, 10, 100, 900, .pending, false, .pending, true, [], 250,
    400, false⟩

/-- C10 counterexample: with `auto_process_payouts` off, the claim says the
payment is still marked completed and a `VendorEarning` is still created by
the save hook. At the sample state the hook crashes instead
(`_create_vendor_earning` raises `TypeError`): no earning row exists, the
persisted payment status is still processing, and the callback is answered
with an error. -/
theorem C10_auto_off_counterexample :
    (handle_stk_callback 0 sample_stk_state_auto_off).1.earnings.length = 0 ∧
    (handle_stk_callback 0 sample_stk_state_auto_off).1.payment_status =
      .processing ∧
    (handle_stk_callback 0 sample_stk_state_auto_off).2 = false := by
  norm_num [handle_stk_callback, payment_save, payment_save_commission,
    payment_save_net, create_vendor_earning, sample_stk_state_auto_off]

/-- C10 (amended): a successful callback processed while
`auto_process_payouts` is off persists the order paid flag and leaves the
vendor available balance and total earnings unchanged; but no `VendorEarning`
is created and the completed payment status is never persisted — the save
hook calls `_create_vendor_earning`, which raises `TypeError` on the `order`
kwarg, aborting `payment.save()` before the database write, and the callback
is answered with an error. -/
theorem C10_auto_off_crash (s : StkState)
    (hauto : s.auto_process_payouts = false)
    (hpo : s.payout_status = .pending)
    (hlink : s.vendor_earning_linked = false)
    (hv : s.order_has_vendor = true) :
    handle_stk_callback 0 s =
      ({ s with order_payment_status := .paid }, false) := by
  have hstep : handle_stk_callback 0 s =
      payment_save { s with order_payment_status := .paid }
        { s with order_payment_status := .paid,
                 payment_status := .completed } := by
    unfold handle_stk_callback
    simp [hauto]
  have f1 := payment_save_commission_frame
    { s with order_payment_status := .paid, payment_status := .completed }
  have f2 := payment_save_net_frame (payment_save_commission
    { s with order_payment_status := .paid, payment_status := .completed })
  have h1 : (payment_save_net (payment_save_commission
      { s with order_payment_status := .paid,
               payment_status := .completed })).payment_status =
      .completed := by rw [f2.1, f1.1]
  have h2 : (payment_save_net (payment_save_commission
      { s with order_payment_status := .paid,
               payment_status := .completed })).payout_status =
      .pending := by rw [f2.2.1, f1.2.1]; exact hpo
  have h3 : (payment_save_net (payment_save_commission
      { s with order_payment_status := .paid,
               payment_status := .completed })).vendor_earning_linked =
      false := by rw [f2.2.2.1, f1.2.2.1]; exact hlink
  have h4 : (payment_save_net (payment_save_commission
      { s with order_payment_status := .paid,
               payment_status := .completed })).order_has_vendor =
      true := by rw [f2.2.2.2.2.1, f1.2.2.2.2.1]; exact hv
  rw [hstep]
  unfold payment_save
  rw [if_pos ⟨h1, h2, h3⟩]
  simp [create_vendor_earning, h4]

/-- C10 witness: with `auto_process_payouts` off at the sample state, the
handler persists only the order paid flag and reports the error outcome. -/
theorem C10_auto_off_crash_witness :
    handle_stk_callback 0 sample_stk_state_auto_off =
      ({ sample_stk_state_auto_off with order_payment_status := .paid },
        false) :=
  C10_auto_off_crash sample_stk_state_auto_off rfl rfl rfl rfl

/-! ## Payout processing and B2C callback (payments/views.py,
`PayoutRequestViewSet.process` lines 269-347 and `_handle_b2c_callback` lines
550-615; vendors/models.py, `PayoutTransaction`)

`process` requires the request to be approved and `can_be_processed`
(`vendor.available_balance >= amount`, payments/models.py lines 231-235),
creates a `PayoutTransaction` in processing status and moves the amount from
the available balance into pending payouts. `_handle_b2c_callback` looks the
transaction up by its unique `payout_reference` and applies the success or
failure ledger move with no check of the transaction current status. -/

/-- `PayoutTransaction.status` choices (vendors/models.py lines 158-164). -/
inductive PayoutTxStatus
  | initiated
  | processing
  | completed
  | failed
  | cancelled
deriving DecidableEq, Repr

/-- `PayoutRequest.status` choices (payments/models.py lines 188-195). -/
inductive PayoutRequestStatus
  | pending
  | approved
  | processing
  | completed
  | rejected
  | failed
deriving DecidableEq, Repr

/-- The rows `_handle_b2c_callback` touches: the `PayoutTransaction` found by
`payout_reference` and its vendor ledger counters. -/
structure B2cState where
  tx_status : PayoutTxStatus
  tx_amount : ℚ
  available_balance : ℚ
  pending_payouts : ℚ
  total_paid_out : ℚ
deriving DecidableEq, Repr

/-- `PayoutRequestViewSet.process` (payments/views.py lines 269-347): reject
unless the request is approved and `can_be_processed` holds
(`available_balance >= amount`); otherwise create a processing
`PayoutTransaction` for the amount, subtract the amount from the available
balance and add it to pending payouts. -/
def process_payout (request_status : PayoutRequestStatus) (amount : ℚ)
    (v : VendorLedger) : Option B2cState :=
  if request_status = .approved ∧ amount ≤ v.available_balance then
    some
      { tx_status := .processing,
        tx_amount := amount,
        available_balance := v.available_balance - amount,
        pending_payouts := v.pending_payouts + amount,
        total_paid_out := v.total_paid_out }
  else none

/-- `_handle_b2c_callback` (payments/views.py lines 550-615): on result code 0
mark the transaction completed and move the amount from pending payouts to
total paid out; otherwise mark it failed and move the amount from pending
payouts back to the available balance. The source checks nothing about the
transaction current status before doing so. -/
def handle_b2c_callback (result_code : ℤ) (s : B2cState) : B2cState :=
  if result_code = 0 then
    { s with
        tx_status := .completed,
        pending_payouts := s.pending_payouts - s.tx_amount,
        total_paid_out := s.total_paid_out + s.tx_amount }
  else
    { s with
        tx_status := .failed,
        available_balance := s.available_balance + s.tx_amount,
        pending_payouts := s.pending_payouts - s.tx_amount }

/-- C4: processing an approved payout of amount A deducts A from the available
balance, adds A to pending payouts and creates a transaction in
initiated/processing status; a success callback then moves A from pending
payouts to total paid out and marks the transaction completed; a failure
callback moves A from pending payouts back to the available balance and marks
it failed. -/
theorem C4_payout_flow (rs : PayoutRequestStatus) (amount : ℚ)
    (v : VendorLedger) (happ : rs = .approved)
    (hbal : amount ≤ v.available_balance) :
    ∃ t, process_payout rs amount v = some t ∧
      t.available_balance = v.available_balance - amount ∧
      t.pending_payouts = v.pending_payouts + amount ∧
      t.tx_amount = amount ∧
      (t.tx_status = .initiated ∨ t.tx_status = .processing) ∧
      (handle_b2c_callback 0 t).tx_status = .completed ∧
      (handle_b2c_callback 0 t).available_balance =
        v.available_balance - amount ∧
      (handle_b2c_callback 0 t).pending_payouts = v.pending_payouts ∧
      (handle_b2c_callback 0 t).total_paid_out = v.total_paid_out + amount ∧
      (∀ rc : ℤ, rc ≠ 0 →
        (handle_b2c_callback rc t).tx_status = .failed ∧
        (handle_b2c_callback rc t).available_balance = v.available_balance ∧
        (handle_b2c_callback rc t).pending_payouts = v.pending_payouts ∧
        (handle_b2c_callback rc t).total_paid_out = v.total_paid_out) := by
  refine ⟨⟨.processing, amount, v.available_balance - amount,
      v.pending_payouts + amount, v.total_paid_out⟩,
    by simp [process_payout, happ, hbal], rfl, rfl, rfl, Or.inr rfl,
    by simp [handle_b2c_callback], by simp [handle_b2c_callback],
    by simp [handle_b2c_callback], by simp [handle_b2c_callback],
    fun rc hrc => ?_⟩
  refine ⟨?_, ?_, ?_, ?_⟩ <;> simp [handle_b2c_callback, hrc]

/-- C4 witness (Scenario D): from an approved request of 200 against a ledger
with available balance 500 and no pending payouts, processing yields a
processing transaction with balances 300/200, and the success callback then
drains pending payouts to 0, sets total paid out to 200 and completes the
transaction. -/
theorem C4_payout_flow_witness :
    process_payout .approved 200 ⟨500, 500, 0, 0⟩ =
      some ⟨.processing, 200, 300, 200, 0⟩ ∧
    (handle_b2c_callback 0 ⟨.processing, 200, 300, 200, 0⟩).pending_payouts =
      0 ∧
    (handle_b2c_callback 0 ⟨.processing, 200, 300, 200, 0⟩).total_paid_out =
      200 ∧
    (handle_b2c_callback 0 ⟨.processing, 200, 300, 200, 0⟩).tx_status =
      .completed := by
  obtain ⟨t, h1, -, -, -, -, h5, -, h7, h8, -⟩ :=
    C4_payout_flow .approved 200 ⟨500, 500, 0, 0⟩ rfl (by norm_num)
  have hp : process_payout .approved 200 ⟨500, 500, 0, 0⟩ =
      some (⟨.processing, 200, 300, 200, 0⟩ : B2cState) := by
    norm_num [process_payout]
  have ht : t = ⟨.processing, 200, 300, 200, 0⟩ :=
    (Option.some.inj (hp.symm.trans h1)).symm
  rw [ht] at h5 h7 h8
  exact ⟨hp, by simpa using h7, by simpa using h8, h5⟩

/-- A transaction already completed: amount 200 paid out, pending payouts
drained to 0, total paid out 200. -/
def sample_completed_tx : B2cState := ⟨.completed, 200, 300, 0, 200⟩

/-- C5: a repeated callback for a transaction already in the terminal
completed state is not ignored — the success path re-runs the ledger move
(pending payouts driven to -200, total paid out doubled to 400), and a failure
callback even moves the terminal status back to failed while crediting the
available balance again. -/
theorem C5_terminal_tx_not_ignored :
    handle_b2c_callback 0 sample_completed_tx =
      ⟨.completed, 200, 300, -200, 400⟩ ∧
    handle_b2c_callback 1 sample_completed_tx =
      ⟨.failed, 200, 500, -200, 200⟩ := by
  norm_num [handle_b2c_callback, sample_completed_tx]

/-! ## Ledger conservation over event sequences (C2)

A vendor ledger evolves through the three code paths that touch it:
payment completion credits (`_handle_stk_callback`, payments/views.py lines
528-532), payout initiation (`PayoutRequestViewSet.process`, lines 318-322,
guarded by `can_be_processed`), and payout resolution
(`_handle_b2c_callback`, lines 564-601). The events below are exactly those
ledger mutations; a sequence of them models "any sequence of completed
payments and completed/failed payouts", each payout transaction being
initiated once (with the sufficient-balance check the code performs and a
non-negative requested amount, per `MinValueValidator(0)`) and resolved at
most once. -/

/-- A `PayoutTransaction` row as the trace model tracks it. -/
structure PayoutTx where
  amount : ℚ
  status : PayoutTxStatus
deriving DecidableEq, Repr

/-- A vendor ledger together with the vendor `PayoutTransaction` rows. -/
structure VendorState where
  total_earnings : ℚ
  available_balance : ℚ
  pending_payouts : ℚ
  total_paid_out : ℚ
  payouts : List PayoutTx
deriving DecidableEq, Repr

/-- The ledger-mutating events of the payment/payout subsystem. -/
inductive LedgerEvent
  | payment_completed (net : ℚ)
  | payout_initiated (amount : ℚ)
  | payout_completed (i : ℕ)
  | payout_failed (i : ℕ)
deriving DecidableEq, Repr

/-- One ledger event, with the effects the code applies:

* `payment_completed net` — `_handle_stk_callback` success with automatic
  payout processing on: `available_balance += net`, `total_earnings += net`;
* `payout_initiated a` — `PayoutRequestViewSet.process` after the
  `can_be_processed` check (`available_balance >= amount`; the amount is
  non-negative by the `MinValueValidator(0)` on `PayoutRequest.amount`):
  `available_balance -= a`, `pending_payouts += a`, new processing
  transaction;
* `payout_completed i` / `payout_failed i` — `_handle_b2c_callback` resolving
  the processing transaction `i` exactly once (a single delivery of its
  terminal callback): the success move `pending_payouts -> total_paid_out` or
  the failure move `pending_payouts -> available_balance`. -/
def ledger_step (s : VendorState) : LedgerEvent → Option VendorState
  | .payment_completed net =>
      some { s with
        available_balance := s.available_balance + net,
        total_earnings := s.total_earnings + net }
  | .payout_initiated a =>
      if 0 ≤ a ∧ a ≤ s.available_balance then
        some { s with
          available_balance := s.available_balance - a,
          pending_payouts := s.pending_payouts + a,
          payouts := s.payouts ++ [⟨a, .processing⟩] }
      else none
  | .payout_completed i =>
      s.payouts[i]?.bind fun tx =>
        if tx.status = .processing then
          some { s with
            pending_payouts := s.pending_payouts - tx.amount,
            total_paid_out := s.total_paid_out + tx.amount,
            payouts := s.payouts.set i { tx with status := .completed } }
        else none
  | .payout_failed i =>
      s.payouts[i]?.bind fun tx =>
        if tx.status = .processing then
          some { s with
            available_balance := s.available_balance + tx.amount,
            pending_payouts := s.pending_payouts - tx.amount,
            payouts := s.payouts.set i { tx with status := .failed } }
        else none

/-- Run a sequence of ledger events. -/
def run_ledger : VendorState → List LedgerEvent → Option VendorState
  | s, [] => some s
  | s, e :: es =>
      match ledger_step s e with
      | some s2 => run_ledger s2 es
      | none => none

/-- The contribution of one transaction to the completed payout total. -/
def completed_amount (tx : PayoutTx) : ℚ :=
  if tx.status = .completed then tx.amount else 0

/-- The sum of the amounts of the completed `PayoutTransaction` rows. -/
def completed_total (l : List PayoutTx) : ℚ :=
  (l.map completed_amount).sum

/-- A fresh vendor: all four counters default to 0.00 (vendors/models.py
lines 291-294) and no payout transactions exist. -/
def initial_vendor_state : VendorState := ⟨0, 0, 0, 0, []⟩

/-- The inductive invariant: the claimed ledger inequality, the claimed
characterisation of `total_paid_out`, and non-negativity of the recorded
transaction amounts. -/
def LedgerInv (s : VendorState) : Prop :=
  s.available_balance + s.pending_payouts ≤ s.total_earnings ∧
  s.total_paid_out = completed_total s.payouts ∧
  ∀ tx ∈ s.payouts, 0 ≤ tx.amount

theorem completed_total_nil : completed_total [] = 0 := rfl

theorem completed_total_append (l l2 : List PayoutTx) :
    completed_total (l ++ l2) = completed_total l + completed_total l2 := by
  simp [completed_total]

theorem completed_total_set (l : List PayoutTx) :
    ∀ (i : ℕ) (tx tx2 : PayoutTx), l[i]? = some tx →
      completed_total (l.set i tx2) =
        completed_total l - completed_amount tx + completed_amount tx2 := by
  induction l with
  | nil => intro i tx tx2 h; simp at h
  | cons x xs ih =>
      intro i tx tx2 h
      cases i with
      | zero =>
          simp only [List.getElem?_cons_zero, Option.some.injEq] at h
          subst h
          simp [completed_total, List.set]
          ring
      | succ j =>
          simp only [List.getElem?_cons_succ] at h
          have := ih j tx tx2 h
          simp [completed_total, List.set] at this ⊢
          linarith

/-- Every single ledger event preserves the inductive invariant. -/
theorem ledger_step_preserves (s s2 : VendorState) (e : LedgerEvent)
    (hstep : ledger_step s e = some s2) (hinv : LedgerInv s) :
    LedgerInv s2 := by
  obtain ⟨hle, hpaid, hnn⟩ := hinv
  cases e with
  | payment_completed net =>
      simp only [ledger_step, Option.some.injEq] at hstep
      subst hstep
      exact ⟨by simp; linarith, by simpa using hpaid, by simpa using hnn⟩
  | payout_initiated a =>
      simp only [ledger_step] at hstep
      split at hstep
      · rename_i h
        simp only [Option.some.injEq] at hstep
        subst hstep
        refine ⟨by simp; linarith, ?_, ?_⟩
        · simp [completed_total_append, completed_total, completed_amount,
            hpaid]
        · intro tx htx
          simp only [List.mem_append, List.mem_singleton] at htx
          rcases htx with htx | htx
          · exact hnn tx htx
          · rw [htx]
            exact h.1
      · cases hstep
  | payout_completed i =>
      simp only [ledger_step] at hstep
      cases hget : s.payouts[i]? with
      | none => rw [hget, Option.none_bind] at hstep; cases hstep
      | some tx =>
          rw [hget, Option.some_bind] at hstep
          split at hstep
          · rename_i hproc
            simp only [Option.some.injEq] at hstep
            subst hstep
            have hmem := List.getElem?_mem hget
            have htxnn : 0 ≤ tx.amount := hnn tx hmem
            refine ⟨by simp; linarith, ?_, ?_⟩
            · have hset := completed_total_set s.payouts i tx
                { tx with status := .completed } hget
              simp only [hset]
              simp [hpaid, completed_amount, hproc]
            · intro tx2 htx2
              rcases List.mem_or_eq_of_mem_set htx2 with h | h
              · exact hnn tx2 h
              · rw [h]; exact htxnn
          · cases hstep
  | payout_failed i =>
      simp only [ledger_step] at hstep
      cases hget : s.payouts[i]? with
      | none => rw [hget, Option.none_bind] at hstep; cases hstep
      | some tx =>
          rw [hget, Option.some_bind] at hstep
          split at hstep
          · rename_i hproc
            simp only [Option.some.injEq] at hstep
            subst hstep
            have hmem := List.getElem?_mem hget
            have htxnn : 0 ≤ tx.amount := hnn tx hmem
            refine ⟨by simp; linarith, ?_, ?_⟩
            · have hset := completed_total_set s.payouts i tx
                { tx with status := .failed } hget
              simp only [hset]
              simp [hpaid, completed_amount, hproc]
            · intro tx2 htx2
              rcases List.mem_or_eq_of_mem_set htx2 with h | h
              · exact hnn tx2 h
              · rw [h]; exact htxnn
          · cases hstep

/-- Running any event sequence preserves the inductive invariant. -/
theorem run_ledger_preserves (events : List LedgerEvent) :
    ∀ (s s2 : VendorState), run_ledger s events = some s2 → LedgerInv s →
      LedgerInv s2 := by
  induction events with
  | nil => intro s s2 h hinv; cases h; exact hinv
  | cons e es ih =>
      intro s s2 h hinv
      unfold run_ledger at h
      cases hstep : ledger_step s e with
      | none => rw [hstep] at h; cases h
      | some smid =>
          rw [hstep] at h
          exact ih smid s2 h (ledger_step_preserves s smid e hstep hinv)

/-- C2: after any sequence of completed payments and completed/failed payouts
starting from a fresh vendor, `available_balance + pending_payouts <=
total_earnings` holds and `total_paid_out` equals the sum of the amounts of
the vendor `PayoutTransaction` rows in completed status. -/
theorem C2_ledger_conservation (events : List LedgerEvent)
    (s : VendorState)
    (hrun : run_ledger initial_vendor_state events = some s) :
    s.available_balance + s.pending_payouts ≤ s.total_earnings ∧
      s.total_paid_out = completed_total s.payouts := by
  have hinit : LedgerInv initial_vendor_state := by
    refine ⟨by norm_num [initial_vendor_state], by
      norm_num [initial_vendor_state, completed_total], ?_⟩
    intro tx htx
    simp [initial_vendor_state] at htx
  have := run_ledger_preserves events initial_vendor_state s hrun hinit
  exact ⟨this.1, this.2.1⟩

/-- The Scenario D shaped trace: a completed payment crediting 900, a payout
of 200 initiated, that payout confirmed by the gateway. -/
def sample_trace : List LedgerEvent :=
  [.payment_completed 900, .payout_initiated 200, .payout_completed 0]

/-- The state the sample trace reaches. -/
def sample_trace_result : VendorState :=
  ⟨900, 700, 0, 200, [⟨200, .completed⟩]⟩

theorem sample_trace_runs :
    run_ledger initial_vendor_state sample_trace =
      some sample_trace_result := by
  norm_num [run_ledger, ledger_step, initial_vendor_state, sample_trace,
    sample_trace_result, List.set]

/-- C2 witness: on the concrete three-event trace the reached state satisfies
the ledger inequality and the completed-payout characterisation. -/
theorem C2_ledger_conservation_witness :
    sample_trace_result.available_balance +
        sample_trace_result.pending_payouts ≤
      sample_trace_result.total_earnings ∧
    sample_trace_result.total_paid_out =
      completed_total sample_trace_result.payouts :=
  C2_ledger_conservation sample_trace sample_trace_result sample_trace_runs

end Zeno
